import Mathlib

/-!
Verification of the metrics computation engine of `src/app.py`
(`process_data`, `filter_date`, `extract_date`) and of the tabular
ingestion (`items_to_dataframe`), as a shallow embedding in Lean.

Modelling conventions, stated once:

* A pandas cell coming out of the ingestion layer is a string or a missing
  value (`NaN`/`None`); `filter_date` rewrites the filtered column to
  `datetime.date` objects.  `CellVal` covers the three shapes:
  `CellVal.str`, `CellVal.date`, `CellVal.null`.
* A float held in a pandas Series or output column is modelled by
  `PandasVal`: a finite rational, `nan`, `inf` or `ninf`.  Integer columns
  (`.astype(int)`) are modelled as `Nat`.
* A stage DataFrame that has the four relevant columns
  (`Owner`, `Deal Value`, `Date Created`, `Sales Call Date`) is a
  `List SRow`.  A DataFrame *without* those columns — the `pd.DataFrame()`
  default that `dataframes.get(key, pd.DataFrame())` substitutes for a
  missing stage key, which is also what `items_to_dataframe` returns for an
  empty item list — is `none`; reading the `Sales Call Date` column of such
  a frame raises `KeyError`, modelled as `Except.error`.
* `pd.to_datetime(_, errors='coerce')` on strings is modelled for the ISO
  `YYYY-MM-DD` format: exactly ten characters, digits and hyphens in
  pattern position, with a calendar-valid month and day.  Any other string
  (in particular a date surrounded by extra characters) coerces to `NaT`,
  i.e. `none`.  On `datetime.date` inputs it is the identity.
* `pd.to_numeric(_, errors='coerce')` on strings is modelled for decimal
  literals: an optional minus sign, an integer part and an optional
  fractional part; anything else coerces to `NaN`, i.e. `none`.
* `re.search(r"\d{4}-\d{2}-\d{2}", s)` is the leftmost ten-character
  window of `s` matching the digit/hyphen pattern (`findDate`).
* pandas Series arithmetic aligns on the union of the two index sets, with
  a label missing from one side contributing a `NaN` operand; `.map`
  yields `NaN` at a label missing from the mapping series; `.fillna(0)`
  turns `NaN` into `0`; `.replace([np.inf, -np.inf], 0)` turns the two
  infinities into `0`; `.sum()` skips `NaN`.
* `process_data` assigns the extracted `Sales Call Date` column back into
  the caller's DataFrames, so the embedded `processData` returns, next to
  the metrics table, the post-call state of the seven input tables.
-/

namespace MondayCRM

/-- A calendar date, `year-month-day`. -/
structure Date where
  y : Nat
  m : Nat
  d : Nat
deriving DecidableEq, Repr

/-- Comparison of calendar dates (what `datetime.date.__le__` computes). -/
def dateLe (a b : Date) : Bool :=
  decide (a.y < b.y ∨ (a.y = b.y ∧ (a.m < b.m ∨ (a.m = b.m ∧ a.d ≤ b.d))))

/-- A cell of a stage DataFrame: a text value, a `datetime.date` (after
`filter_date` rewrites the filtered column), or a missing value
(`None`/`NaN`/`NaT`). -/
inductive CellVal where
  | null : CellVal
  | str : String → CellVal
  | date : Date → CellVal
deriving DecidableEq, Repr

/-- A float64 value as it lives in a pandas Series: finite, `NaN`, `+inf`
or `-inf`.  Finite values are exact rationals (the numbers in this program
are small counts, sums and ratios; float rounding plays no role in any
claim). -/
inductive PandasVal where
  | num : ℚ → PandasVal
  | nan : PandasVal
  | inf : PandasVal
  | ninf : PandasVal
deriving DecidableEq, Repr

/-- Float addition (`numpy` semantics restricted to the shapes above). -/
def padd : PandasVal → PandasVal → PandasVal
  | .nan, _ => .nan
  | _, .nan => .nan
  | .num a, .num b => .num (a + b)
  | .inf, .ninf => .nan
  | .ninf, .inf => .nan
  | .inf, _ => .inf
  | _, .inf => .inf
  | .ninf, _ => .ninf
  | _, .ninf => .ninf

/-- Float division (`numpy` semantics): `0/0` is `NaN`, `x/0` is a signed
infinity, `NaN` propagates. -/
def pdiv : PandasVal → PandasVal → PandasVal
  | .nan, _ => .nan
  | _, .nan => .nan
  | .num a, .num b =>
      if b = 0 then (if a = 0 then .nan else if a > 0 then .inf else .ninf)
      else .num (a / b)
  | .inf, .inf => .nan
  | .inf, .ninf => .nan
  | .ninf, .inf => .nan
  | .ninf, .ninf => .nan
  | .inf, .num b => if b < 0 then .ninf else .inf
  | .ninf, .num b => if b < 0 then .inf else .ninf
  | .num _, .inf => .num 0
  | .num _, .ninf => .num 0

/-- Multiplication by the scalar 100 (building the percentage columns). -/
def pmul100 : PandasVal → PandasVal
  | .num q => .num (q * 100)
  | v => v

/-- `Series.replace([np.inf, -np.inf], 0).fillna(0)`: every non-finite
value becomes `0`. -/
def pclean : PandasVal → PandasVal
  | .num q => .num q
  | _ => .num 0

/-- `fillna(0)` alone: only `NaN` becomes `0`. -/
def fillnaV : PandasVal → PandasVal
  | .nan => .num 0
  | v => v

def isInfV : PandasVal → Bool
  | .inf => true
  | _ => false

def isNinfV : PandasVal → Bool
  | .ninf => true
  | _ => false

def numOrZero : PandasVal → ℚ
  | .num q => q
  | _ => 0

/-- `Series.sum()` over a float column: `NaN` entries are skipped
(`skipna=True`), infinities dominate. -/
def psum (l : List PandasVal) : PandasVal :=
  if l.any isInfV && l.any isNinfV then .nan
  else if l.any isInfV then .inf
  else if l.any isNinfV then .ninf
  else .num ((l.map numOrZero).sum)

/-- First occurrences of a list's elements, in order (`pd.Series.unique`,
and the index set of a `groupby`). -/
def dedupFirst {α : Type} [DecidableEq α] : List α → List α
  | [] => []
  | k :: ks => k :: dedupFirst (ks.filter (fun x => x ≠ k))
termination_by l => l.length
decreasing_by
  exact Nat.lt_succ_of_le (List.length_filter_le _ _)

/-- A pandas Series indexed by owner labels. -/
abbrev Series := List (CellVal × PandasVal)

def sKeys (s : Series) : List CellVal := s.map Prod.fst

/-- Reading a Series at a label: a label outside the index yields `NaN`
(this is what `Series.map` produces at a miss, and what alignment inserts
for a one-sided label). -/
def sGet (s : Series) (k : CellVal) : PandasVal :=
  match s.find? (fun p => p.1 = k) with
  | some p => p.2
  | none => .nan

/-- Index-aligned binary Series arithmetic: the result is indexed by the
union of the two index sets and a label missing from one operand
contributes `NaN` there. -/
def alignWith (f : PandasVal → PandasVal → PandasVal) (s t : Series) : Series :=
  (dedupFirst (sKeys s ++ sKeys t)).map (fun k => (k, f (sGet s k) (sGet t k)))

/-- `replace([np.inf, -np.inf], 0).fillna(0)` applied to a whole Series. -/
def cleanS (s : Series) : Series := s.map (fun p => (p.1, pclean p.2))

/-! ### Parsing models -/

def digitVal (c : Char) : Nat := c.toNat - '0'.toNat

def daysInMonth (y m : Nat) : Nat :=
  if m = 2 then (if (y % 4 = 0 && y % 100 ≠ 0) || y % 400 = 0 then 29 else 28)
  else if m = 4 || m = 6 || m = 9 || m = 11 then 30
  else 31

/-- Model of `pd.to_datetime(s, errors='coerce')` on a string, restricted
to the ISO `YYYY-MM-DD` format (see the module comment): any string that is
not exactly a calendar-valid `YYYY-MM-DD` coerces to `NaT` (`none`). -/
def parseIsoDate (s : String) : Option Date :=
  match s.toList with
  | [y1, y2, y3, y4, h1, m1, m2, h2, d1, d2] =>
      if y1.isDigit && y2.isDigit && y3.isDigit && y4.isDigit && h1 = '-' &&
         m1.isDigit && m2.isDigit && h2 = '-' && d1.isDigit && d2.isDigit then
        let y := ((digitVal y1 * 10 + digitVal y2) * 10 + digitVal y3) * 10 + digitVal y4
        let m := digitVal m1 * 10 + digitVal m2
        let d := digitVal d1 * 10 + digitVal d2
        if 1 ≤ m && m ≤ 12 && 1 ≤ d && d ≤ daysInMonth y m then some ⟨y, m, d⟩ else none
      else none
  | _ => none

/-- `pd.to_datetime(_, errors='coerce')` on a cell: missing stays missing
(`NaT`), a `datetime.date` passes through, a string is parsed. -/
def pdToDate (c : CellVal) : Option Date :=
  match c with
  | .null => none
  | .date dt => some dt
  | .str s => parseIsoDate s

/-- Does a ten-character window match `\d{4}-\d{2}-\d{2}`? -/
def dateShape10 : List Char → Bool
  | [y1, y2, y3, y4, h1, m1, m2, h2, d1, d2] =>
      y1.isDigit && y2.isDigit && y3.isDigit && y4.isDigit && h1 = '-' &&
      m1.isDigit && m2.isDigit && h2 = '-' && d1.isDigit && d2.isDigit
  | _ => false

/-- `re.search(r"\d{4}-\d{2}-\d{2}", _)`: the leftmost ten-character window
matching the pattern, scanning start positions left to right. -/
def findDate : List Char → Option (List Char)
  | [] => none
  | c :: cs =>
      if dateShape10 ((c :: cs).take 10) then some ((c :: cs).take 10)
      else findDate cs

def extractDateStr (s : String) : Option String :=
  (findDate s.toList).map (fun l => ⟨l⟩)

/-- `extract_date` of `src/app.py` on a cell: missing values and the
literal text `'NaT'` give `None`; a string gives the first `YYYY-MM-DD`
substring (or `None`); a non-string (e.g. a date object) gives `None`. -/
def extractDateCell : CellVal → CellVal
  | .null => .null
  | .str s =>
      if s = "NaT" then .null
      else
        match extractDateStr s with
        | some m => .str m
        | none => .null
  | .date _ => .null

def digitsVal : List Char → Option Nat
  | [] => none
  | l => if l.all Char.isDigit then
           some (l.foldl (fun a c => a * 10 + digitVal c) 0)
         else none

/-- Model of `pd.to_numeric(s, errors='coerce')` on a string, restricted to
decimal literals (see the module comment): optional minus sign, an integer
part, an optional `.` and fractional part; anything else coerces to `NaN`
(`none`). -/
def parseNumStr (s : String) : Option ℚ :=
  let cs := s.toList
  let sign : ℚ := if cs.head? = some '-' then -1 else 1
  let cs2 := if cs.head? = some '-' then cs.tail else cs
  let intPart := cs2.takeWhile (fun c => c ≠ '.')
  match cs2.dropWhile (fun c => c ≠ '.') with
  | [] => (digitsVal intPart).map (fun n => sign * n)
  | _ :: frac =>
      match digitsVal intPart, digitsVal frac with
      | some n, some f => some (sign * ((n : ℚ) + (f : ℚ) / (10 ^ frac.length)))
      | _, _ => none

/-- `pd.to_numeric(_, errors='coerce')` on a cell. -/
def toNumeric (c : CellVal) : Option ℚ :=
  match c with
  | .str s => parseNumStr s
  | _ => none

/-! ### Stage-table rows and the date filter -/

/-- One row of a stage DataFrame, restricted to the four columns the
metrics engine reads. -/
structure SRow where
  owner : CellVal
  dealValue : CellVal
  dateCreated : CellVal
  salesCallDate : CellVal
deriving DecidableEq, Repr

/-- The user-selectable filter column of `process_data`. -/
inductive FilterCol where
  | dateCreated : FilterCol
  | salesCallDate : FilterCol
deriving DecidableEq, Repr

def getCol (r : SRow) : FilterCol → CellVal
  | .dateCreated => r.dateCreated
  | .salesCallDate => r.salesCallDate

def setCol (r : SRow) (c : FilterCol) (v : CellVal) : SRow :=
  match c with
  | .dateCreated => { r with dateCreated := v }
  | .salesCallDate => { r with salesCallDate := v }

/-- `filter_date` of `src/app.py`: copy the frame, rewrite the filter
column with `pd.to_datetime(..., errors='coerce').dt.date`, then keep the
rows whose date lies between the bounds, both ends inclusive.  Rows whose
value coerced to `NaT` fail both comparisons and are dropped; nothing
raises. -/
def filterDate (rows : List SRow) (col : FilterCol) (sd ed : Date) : List SRow :=
  (rows.map (fun r =>
      setCol r col (match pdToDate (getCol r col) with
        | some dt => .date dt
        | none => .null))).filter
    (fun r =>
      match getCol r col with
      | .date dt => dateLe sd dt && dateLe dt ed
      | _ => false)

/-! ### Tabular ingestion (`items_to_dataframe` of `src/app.py`) -/

/-- One entry of an item's `column_values` list.  `text := none` models a
column dict without a `'text'` key, which `column.get('text', '')` turns
into an empty string. -/
structure ColVal where
  id : String
  text : Option String
deriving DecidableEq, Repr

/-- One raw record from the fetch layer. -/
structure Item where
  id : String
  name : String
  columnValues : List ColVal
deriving DecidableEq, Repr

/-- Python dict assignment `d[k] = v`: replace the value of an existing
key in place, else append the pair. -/
def dictSet : List (String × String) → String → String → List (String × String)
  | [], k, v => [(k, v)]
  | p :: d, k, v => if p.1 = k then (k, v) :: d else p :: dictSet d k v

/-- Python dict lookup: `none` when the key was never assigned (a cell the
DataFrame constructor fills with `NaN`). -/
def dictGet (d : List (String × String)) (k : String) : Option String :=
  (d.find? (fun p => p.1 = k)).map Prod.snd

/-- The row dict `items_to_dataframe` builds for one item: the two fixed
cells, then one assignment per entry of the item's own attribute list. -/
def rowDict (it : Item) : List (String × String) :=
  it.columnValues.foldl (fun d cv => dictSet d cv.id (cv.text.getD ""))
    [("Item ID", it.id), ("Item Name", it.name)]

/-- The table `pd.DataFrame(data, columns=headers)` yields: the header list
and one row dict per item.  A header missing from a row's dict is a `NaN`
cell. -/
structure IngestTable where
  headers : List String
  rows : List (List (String × String))
deriving DecidableEq, Repr

/-- `items_to_dataframe`: empty input gives the empty frame (with a
warning); otherwise the columns are the two fixed headers plus the *first*
item's attribute ids, and every item contributes exactly one row. -/
def itemsToDataframe : List Item → IngestTable
  | [] => ⟨[], []⟩
  | it :: rest =>
      ⟨"Item ID" :: "Item Name" :: it.columnValues.map (fun cv => cv.id),
       (it :: rest).map rowDict⟩

/-- The cell of row `i` at header `h`: `none` models a `NaN` cell (or a
missing row).  Meant to be read at `h ∈ headers`, mirroring a DataFrame
column access. -/
def cellOf (t : IngestTable) (i : Nat) (h : String) : Option String :=
  match t.rows[i]? with
  | some d => dictGet d h
  | none => none

/-! ### The metrics engine (`process_data` of `src/app.py`)

`Stages` is the `dataframes` mapping after the seven
`dataframes.get(label, pd.DataFrame())` lines: a field is `some rows` for
a table carrying the four columns and `none` for a missing stage key (or a
genuinely column-less empty frame).  `process_data` first assigns
`op_x['Sales Call Date'] = op_x['Sales Call Date'].apply(extract_date)`
for each of the seven tables — a `KeyError` on a column-less frame, and an
in-place mutation of the caller's tables otherwise — and then computes the
metrics.  `processData` returns the metrics table together with the
post-call state of the seven tables. -/

structure Stages where
  scheduled : Option (List SRow)
  unqualified : Option (List SRow)
  won : Option (List SRow)
  cancelled : Option (List SRow)
  noshow : Option (List SRow)
  proposal : Option (List SRow)
  lost : Option (List SRow)
deriving DecidableEq, Repr

/-- The seven tables after the `extract_date` assignment phase. -/
structure Extracted where
  scheduled : List SRow
  unqualified : List SRow
  won : List SRow
  cancelled : List SRow
  noshow : List SRow
  proposal : List SRow
  lost : List SRow
deriving DecidableEq, Repr

/-- `op['Sales Call Date'] = op['Sales Call Date'].apply(extract_date)`
applied to one row. -/
def extractRow (r : SRow) : SRow :=
  { r with salesCallDate := extractDateCell r.salesCallDate }

def extractRows (l : List SRow) : List SRow := l.map extractRow

/-- The extraction phase: reading `op_x['Sales Call Date']` on a
column-less frame raises `KeyError` (the message is the same whichever of
the seven tables is missing, so the tables are examined together). -/
def phase1 (s : Stages) : Except String Extracted :=
  match s.cancelled, s.lost, s.noshow, s.proposal, s.scheduled, s.unqualified, s.won with
  | some c, some l, some n, some p, some sc, some u, some w =>
      Except.ok ⟨extractRows sc, extractRows u, extractRows w, extractRows c,
                 extractRows n, extractRows p, extractRows l⟩
  | _, _, _, _, _, _, _ => Except.error "KeyError: Sales Call Date"

/-- `all_deal = pd.concat(list_all)` with
`list_all = [cancelled, lost, noshow, proposal, scheduled, unqualified, won]`. -/
def allDeal (e : Extracted) : List SRow :=
  e.cancelled ++ e.lost ++ e.noshow ++ e.proposal ++ e.scheduled ++ e.unqualified ++ e.won

/-- The non-null owner labels of a row list, first occurrences in order:
`Series.dropna().unique()` and also the (unsorted view of the) key set of
`groupby('Owner')`. -/
def ownerKeys (rows : List SRow) : List CellVal :=
  dedupFirst (rows.filterMap (fun r => if r.owner = CellVal.null then none else some r.owner))

/-- `groupby('Owner').size()`: rows with a null owner are dropped by the
grouping. -/
def countsBy (rows : List SRow) : List (CellVal × Nat) :=
  (ownerKeys rows).map (fun k => (k, (rows.filter (fun r => r.owner = k)).length))

/-- `groupby('Owner')['Deal Value'].sum()` after coercing `Deal Value`
to numeric with unparsable values as 0. -/
def sumDealBy (rows : List SRow) : List (CellVal × ℚ) :=
  (ownerKeys rows).map (fun k =>
    (k, ((rows.filter (fun r => r.owner = k)).map
          (fun r => (toNumeric r.dealValue).getD 0)).sum))

def natSeries (c : List (CellVal × Nat)) : Series :=
  c.map (fun p => (p.1, PandasVal.num p.2))

def qSeries (c : List (CellVal × ℚ)) : Series :=
  c.map (fun p => (p.1, PandasVal.num p.2))

/-- `df['Owner'].map(counts).fillna(0).astype(int)` at one owner label. -/
def countD (c : List (CellVal × Nat)) (k : CellVal) : Nat :=
  match c.find? (fun p => p.1 = k) with
  | some p => p.2
  | none => 0

/-- `df['Owner'].map(sums).fillna(0)` at one owner label. -/
def qLookupD (c : List (CellVal × ℚ)) (k : CellVal) : ℚ :=
  match c.find? (fun p => p.1 = k) with
  | some p => p.2
  | none => 0

/-- `df['Owner'] = pd.Series(all_deal['Owner'].dropna()).unique()`: the
row set of the output, before the Total row. -/
def ownersU (e : Extracted) : List CellVal := ownerKeys (allDeal e)

/-- `new_calls_booked = filter_date(all_deal, column).groupby('Owner').size()`. -/
def ncbCounts (e : Extracted) (sd ed : Date) (col : FilterCol) : List (CellVal × Nat) :=
  countsBy (filterDate (allDeal e) col sd ed)

def ncbOf (e : Extracted) (sd ed : Date) (col : FilterCol) (o : CellVal) : Nat :=
  countD (ncbCounts e sd ed col) o

/-- `total_ncb = df['New Calls Booked'].sum()`. -/
def totalNcb (e : Extracted) (sd ed : Date) (col : FilterCol) : Nat :=
  ((ownersU e).map (ncbOf e sd ed col)).sum

/-- `pd.concat([op_unqualified, op_proposal, op_won, op_lost])`. -/
def sctRows (e : Extracted) : List SRow :=
  e.unqualified ++ e.proposal ++ e.won ++ e.lost

def sctCounts (e : Extracted) (sd ed : Date) (col : FilterCol) : List (CellVal × Nat) :=
  countsBy (filterDate (sctRows e) col sd ed)

def sctOf (e : Extracted) (sd ed : Date) (col : FilterCol) (o : CellVal) : Nat :=
  countD (sctCounts e sd ed col) o

def totalSct (e : Extracted) (sd ed : Date) (col : FilterCol) : Nat :=
  ((ownersU e).map (sctOf e sd ed col)).sum

/-- `df.set_index('Owner')['New Calls Booked']`: a Series over the full
owner index. -/
def ncbSeries (e : Extracted) (sd ed : Date) (col : FilterCol) : Series :=
  (ownersU e).map (fun o => (o, PandasVal.num (ncbOf e sd ed col o)))

/-- `df.set_index('Owner')['Sales Call Taken']`. -/
def sctSeries (e : Extracted) (sd ed : Date) (col : FilterCol) : Series :=
  (ownersU e).map (fun o => (o, PandasVal.num (sctOf e sd ed col o)))

/-- `show_rate = (sales_calls_taken / ncb).replace([inf,-inf],0).fillna(0)`. -/
def showRateSeries (e : Extracted) (sd ed : Date) (col : FilterCol) : Series :=
  cleanS (alignWith pdiv (natSeries (sctCounts e sd ed col)) (ncbSeries e sd ed col))

def totalShowRate (e : Extracted) (sd ed : Date) (col : FilterCol) : ℚ :=
  if totalNcb e sd ed col ≠ 0 then
    ((totalSct e sd ed col : ℚ) / (totalNcb e sd ed col : ℚ)) * 100
  else 0

def uqCounts (e : Extracted) (sd ed : Date) (col : FilterCol) : List (CellVal × Nat) :=
  countsBy (filterDate e.unqualified col sd ed)

def uqRateSeries (e : Extracted) (sd ed : Date) (col : FilterCol) : Series :=
  cleanS (alignWith pdiv (natSeries (uqCounts e sd ed col)) (ncbSeries e sd ed col))

def totalUqRate (e : Extracted) (sd ed : Date) (col : FilterCol) : ℚ :=
  if totalNcb e sd ed col ≠ 0 then
    (((filterDate e.unqualified col sd ed).length : ℚ) / (totalNcb e sd ed col : ℚ)) * 100
  else 0

def cancCounts (e : Extracted) (sd ed : Date) (col : FilterCol) : List (CellVal × Nat) :=
  countsBy (filterDate e.cancelled col sd ed)

def cancRateSeries (e : Extracted) (sd ed : Date) (col : FilterCol) : Series :=
  cleanS (alignWith pdiv (natSeries (cancCounts e sd ed col)) (ncbSeries e sd ed col))

def totalCancRate (e : Extracted) (sd ed : Date) (col : FilterCol) : ℚ :=
  if totalNcb e sd ed col ≠ 0 then
    (((filterDate e.cancelled col sd ed).length : ℚ) / (totalNcb e sd ed col : ℚ)) * 100
  else 0

def propCounts (e : Extracted) (sd ed : Date) (col : FilterCol) : List (CellVal × Nat) :=
  countsBy (filterDate e.proposal col sd ed)

def wonCounts (e : Extracted) (sd ed : Date) (col : FilterCol) : List (CellVal × Nat) :=
  countsBy (filterDate e.won col sd ed)

/-- `prop_rate = ((prop + won_r) / ncb).replace([inf,-inf],0).fillna(0)` —
note the index-aligned Series addition `prop + won_r`, in which an owner
present on only one side yields a `NaN` term. -/
def propRateSeries (e : Extracted) (sd ed : Date) (col : FilterCol) : Series :=
  cleanS (alignWith pdiv
    (alignWith padd (natSeries (propCounts e sd ed col)) (natSeries (wonCounts e sd ed col)))
    (ncbSeries e sd ed col))

def totalPropRate (e : Extracted) (sd ed : Date) (col : FilterCol) : ℚ :=
  if totalNcb e sd ed col ≠ 0 then
    ((((filterDate e.proposal col sd ed).length
        + (filterDate e.won col sd ed).length : ℕ) : ℚ)
      / (totalNcb e sd ed col : ℚ)) * 100
  else 0

def closeRateSeries (e : Extracted) (sd ed : Date) (col : FilterCol) : Series :=
  cleanS (alignWith pdiv (natSeries (wonCounts e sd ed col)) (ncbSeries e sd ed col))

/-- `total_close = filter_date(op_won, column).shape[0]`. -/
def totalClose (e : Extracted) (sd ed : Date) (col : FilterCol) : Nat :=
  (filterDate e.won col sd ed).length

def totalCloseRate (e : Extracted) (sd ed : Date) (col : FilterCol) : ℚ :=
  if totalNcb e sd ed col ≠ 0 then
    ((totalClose e sd ed col : ℚ) / (totalNcb e sd ed col : ℚ)) * 100
  else 0

def closeRateShowSeries (e : Extracted) (sd ed : Date) (col : FilterCol) : Series :=
  cleanS (alignWith pdiv (natSeries (wonCounts e sd ed col)) (sctSeries e sd ed col))

def totalCloseRateShow (e : Extracted) (sd ed : Date) (col : FilterCol) : ℚ :=
  if totalSct e sd ed col ≠ 0 then
    ((totalClose e sd ed col : ℚ) / (totalSct e sd ed col : ℚ)) * 100
  else 0

/-- `close_show_rate_mql = (close / prop_show_mql).replace(...).fillna(0)`:
its index is the union of the won and proposal groupings only, so
`df['Owner'].map(...)` misses owners absent from both. -/
def mqlRateSeries (e : Extracted) (sd ed : Date) (col : FilterCol) : Series :=
  cleanS (alignWith pdiv (natSeries (wonCounts e sd ed col)) (natSeries (propCounts e sd ed col)))

/-- `total_proposal_mql = filter_date(op_proposal).shape[0] + filter_date(op_won).shape[0]`. -/
def totalPropMql (e : Extracted) (sd ed : Date) (col : FilterCol) : Nat :=
  (filterDate e.proposal col sd ed).length + (filterDate e.won col sd ed).length

def totalCloseRateMql (e : Extracted) (sd ed : Date) (col : FilterCol) : ℚ :=
  if totalPropMql e sd ed col ≠ 0 then
    ((totalClose e sd ed col : ℚ) / (totalPropMql e sd ed col : ℚ)) * 100
  else 0

/-- `owner_sum`: Deal Value sums over the filtered won rows. -/
def wonDealSums (e : Extracted) (sd ed : Date) (col : FilterCol) : List (CellVal × ℚ) :=
  sumDealBy (filterDate e.won col sd ed)

/-- `total_cr = df['Closed Revenue $'].sum()`. -/
def totalClosedRev (e : Extracted) (sd ed : Date) (col : FilterCol) : PandasVal :=
  psum ((ownersU e).map (fun o => PandasVal.num (qLookupD (wonDealSums e sd ed col) o)))

def revPerCallSeries (e : Extracted) (sd ed : Date) (col : FilterCol) : Series :=
  cleanS (alignWith pdiv (qSeries (wonDealSums e sd ed col)) (ncbSeries e sd ed col))

def totalRevPerCall (e : Extracted) (sd ed : Date) (col : FilterCol) : PandasVal :=
  if totalNcb e sd ed col ≠ 0 then
    pdiv (totalClosedRev e sd ed col) (PandasVal.num (totalNcb e sd ed col))
  else PandasVal.num 0

def revPerShowSeries (e : Extracted) (sd ed : Date) (col : FilterCol) : Series :=
  cleanS (alignWith pdiv (qSeries (wonDealSums e sd ed col)) (sctSeries e sd ed col))

def totalRevPerShow (e : Extracted) (sd ed : Date) (col : FilterCol) : PandasVal :=
  if totalSct e sd ed col ≠ 0 then
    pdiv (totalClosedRev e sd ed col) (PandasVal.num (totalSct e sd ed col))
  else PandasVal.num 0

def revPerPropSeries (e : Extracted) (sd ed : Date) (col : FilterCol) : Series :=
  cleanS (alignWith pdiv (qSeries (wonDealSums e sd ed col)) (natSeries (propCounts e sd ed col)))

def totalRevPerProp (e : Extracted) (sd ed : Date) (col : FilterCol) : PandasVal :=
  if totalPropMql e sd ed col ≠ 0 then
    pdiv (totalClosedRev e sd ed col) (PandasVal.num (totalPropMql e sd ed col))
  else PandasVal.num 0

/-- `owner_sum_prop`: Deal Value sums over the filtered proposal rows. -/
def propDealSums (e : Extracted) (sd ed : Date) (col : FilterCol) : List (CellVal × ℚ) :=
  sumDealBy (filterDate e.proposal col sd ed)

def totalPipelineRev (e : Extracted) (sd ed : Date) (col : FilterCol) : PandasVal :=
  psum ((ownersU e).map (fun o => PandasVal.num (qLookupD (propDealSums e sd ed col) o)))

/-- One row of the output metrics table (the 14 derived columns). -/
structure MetricsRow where
  owner : CellVal
  newCallsBooked : Nat
  salesCallTaken : Nat
  proposalRate : PandasVal
  showRate : PandasVal
  unqualifiedRate : PandasVal
  cancellationRate : PandasVal
  closeRate : PandasVal
  closeRateShow : PandasVal
  closeRateMql : PandasVal
  closedRevenue : PandasVal
  revenuePerCall : PandasVal
  revenuePerShowedUp : PandasVal
  revenuePerProposal : PandasVal
  pipelineRevenue : PandasVal
deriving DecidableEq, Repr

/-- The owner row of the output at label `o`: every column is
`df['Owner'].map(series)` (times 100 for the percentage columns;
`.fillna(0)` after the map for the revenue columns, but for no rate
column). -/
def mkOwnerRow (e : Extracted) (sd ed : Date) (col : FilterCol) (o : CellVal) : MetricsRow where
  owner := o
  newCallsBooked := ncbOf e sd ed col o
  salesCallTaken := sctOf e sd ed col o
  proposalRate := pmul100 (sGet (propRateSeries e sd ed col) o)
  showRate := pmul100 (sGet (showRateSeries e sd ed col) o)
  unqualifiedRate := pmul100 (sGet (uqRateSeries e sd ed col) o)
  cancellationRate := pmul100 (sGet (cancRateSeries e sd ed col) o)
  closeRate := pmul100 (sGet (closeRateSeries e sd ed col) o)
  closeRateShow := pmul100 (sGet (closeRateShowSeries e sd ed col) o)
  closeRateMql := pmul100 (sGet (mqlRateSeries e sd ed col) o)
  closedRevenue := PandasVal.num (qLookupD (wonDealSums e sd ed col) o)
  revenuePerCall := fillnaV (sGet (revPerCallSeries e sd ed col) o)
  revenuePerShowedUp := fillnaV (sGet (revPerShowSeries e sd ed col) o)
  revenuePerProposal := fillnaV (sGet (revPerPropSeries e sd ed col) o)
  pipelineRevenue := PandasVal.num (qLookupD (propDealSums e sd ed col) o)

/-- The `Total` row, from the `totals` array of `process_data`. -/
def totalRow (e : Extracted) (sd ed : Date) (col : FilterCol) : MetricsRow where
  owner := CellVal.str "Total"
  newCallsBooked := totalNcb e sd ed col
  salesCallTaken := totalSct e sd ed col
  proposalRate := PandasVal.num (totalPropRate e sd ed col)
  showRate := PandasVal.num (totalShowRate e sd ed col)
  unqualifiedRate := PandasVal.num (totalUqRate e sd ed col)
  cancellationRate := PandasVal.num (totalCancRate e sd ed col)
  closeRate := PandasVal.num (totalCloseRate e sd ed col)
  closeRateShow := PandasVal.num (totalCloseRateShow e sd ed col)
  closeRateMql := PandasVal.num (totalCloseRateMql e sd ed col)
  closedRevenue := totalClosedRev e sd ed col
  revenuePerCall := totalRevPerCall e sd ed col
  revenuePerShowedUp := totalRevPerShow e sd ed col
  revenuePerProposal := totalRevPerProp e sd ed col
  pipelineRevenue := totalPipelineRev e sd ed col

/-- The output of `process_data`: the per-owner rows in order of first
appearance, and the appended `Total` row (`pd.concat([df, total_df])`). -/
structure MetricsTable where
  ownerRows : List MetricsRow
  total : MetricsRow
deriving DecidableEq, Repr

/-- The final `df` as a plain row list. -/
def toRows (t : MetricsTable) : List MetricsRow := t.ownerRows ++ [t.total]

def computeMetrics (e : Extracted) (sd ed : Date) (col : FilterCol) : MetricsTable :=
  ⟨(ownersU e).map (mkOwnerRow e sd ed col), totalRow e sd ed col⟩

/-- The post-call state of the seven input tables (each still a frame with
its columns, its `Sales Call Date` column rewritten in place). -/
def toStages (e : Extracted) : Stages :=
  ⟨some e.scheduled, some e.unqualified, some e.won, some e.cancelled,
   some e.noshow, some e.proposal, some e.lost⟩

/-- The inverse view used to state claims about the post-call tables. -/
def extractedOfPost (s : Stages) : Extracted :=
  ⟨s.scheduled.getD [], s.unqualified.getD [], s.won.getD [], s.cancelled.getD [],
   s.noshow.getD [], s.proposal.getD [], s.lost.getD []⟩

/-- `process_data(dataframes, st_date, end_date, column)`: either the
`KeyError` a column-less frame raises, or the metrics table together with
the post-call state of the seven input tables. -/
def processData (s : Stages) (sd ed : Date) (col : FilterCol) :
    Except String (MetricsTable × Stages) :=
  (phase1 s).map (fun e => (computeMetrics e sd ed col, toStages e))

/-- The Total-row Close Rate(MQL) that the code actually computes, written
out independently: won count over (proposal count + won count), as a
percentage, 0 when that denominator is 0.  (The per-owner column divides
by the proposal count alone; on the Total row the won count joins the
denominator.) -/
def totalCloseRateMqlAmended (e : Extracted) (sd ed : Date) (col : FilterCol) : ℚ :=
  let w : ℚ := ((filterDate e.won col sd ed).length : ℚ)
  let p : ℚ := ((filterDate e.proposal col sd ed).length : ℚ)
  if p + w ≠ 0 then (w / (p + w)) * 100 else 0

/-! ### Concrete inputs used by the claim checks -/

/-- Start of the date range used by the concrete checks. -/
def dA : Date := ⟨2024, 5, 1⟩

/-- End of the date range used by the concrete checks. -/
def dB : Date := ⟨2024, 5, 31⟩

/-- Seven present-but-empty stage tables (each has its columns). -/
def emptyStages : Stages :=
  ⟨some [], some [], some [], some [], some [], some [], some []⟩

/-- A scheduled record for owner `A` inside the range, with no won and no
proposal record anywhere: the owner is absent from both groupings that
feed Close Rate(MQL). -/
def stagesMqlNan : Stages :=
  { emptyStages with
      scheduled := some [⟨.str "A", .null, .str "2024-05-10", .str "2024-05-10"⟩] }

/-- The `dataframes` mapping with the `noshow` key missing: `.get` then
substitutes the column-less `pd.DataFrame()`. -/
def stagesNoNoshow : Stages := { emptyStages with noshow := none }

/-- One proposal record for owner `A` inside the range and no won record:
the spec's Proposal Rate is (1+0)/1 = 100%. -/
def stagesPropOnly : Stages :=
  { emptyStages with
      proposal := some [⟨.str "A", .str "500", .str "2024-05-10", .str "2024-05-10"⟩] }

/-- One proposal and one won record for owner `A`, both inside the range:
per the claim the Total Close Rate(MQL) would be 1/1 = 100%. -/
def stagesPropWon : Stages :=
  { emptyStages with
      proposal := some [⟨.str "A", .str "500", .str "2024-05-10", .str "2024-05-10"⟩],
      won := some [⟨.str "A", .str "100", .str "2024-05-10", .str "2024-05-10"⟩] }

/-- A row whose `Date Created` is exactly the start of the range. -/
def rowAtStart : SRow := ⟨.str "A", .null, .str "2024-05-01", .null⟩

/-- A cancelled record whose `Sales Call Date` text carries surrounding
characters, so the in-place `extract_date` assignment changes it. -/
def stagesMut : Stages :=
  { emptyStages with
      cancelled := some [⟨.str "A", .null, .str "2024-05-10", .str "Call 2024-05-01"⟩] }

/-- A scheduled record whose owner is the empty string. -/
def stagesEmptyOwner : Stages :=
  { emptyStages with
      scheduled := some [⟨.str "", .null, .str "2024-05-10", .null⟩] }

/-- Two raw items: the first carries attribute `a`, the second carries no
attributes at all. -/
def itemsMissingAttr : List Item :=
  [⟨"1", "n", [⟨"a", some "x"⟩]⟩, ⟨"2", "m", []⟩]

/-- A scheduled record whose date text has surrounding characters in both
date columns: `extract_date` recovers the date for `Sales Call Date`, while
`Date Created` is parsed whole and coerces to `NaT`. -/
def stagesWrapped : Stages :=
  { emptyStages with
      scheduled := some [⟨.str "A", .null, .str "date:2024-05-01", .str "date:2024-05-01"⟩] }

/-! ### Plumbing lemmas -/

theorem processData_ok {s : Stages} {sd ed : Date} {col : FilterCol}
    {out : MetricsTable} {post : Stages}
    (h : processData s sd ed col = Except.ok (out, post)) :
    ∃ e, phase1 s = Except.ok e ∧ out = computeMetrics e sd ed col ∧ post = toStages e := by
  unfold processData at h
  cases hp : phase1 s with
  | error msg => rw [hp] at h; exact absurd h (by simp [Except.map])
  | ok e =>
      rw [hp] at h
      simp only [Except.map, Except.ok.injEq, Prod.mk.injEq] at h
      exact ⟨e, rfl, h.1.symm, h.2.symm⟩

theorem phase1_ok {s : Stages} {e : Extracted} (h : phase1 s = Except.ok e) :
    ∃ sc u w c n p l,
      s = ⟨some sc, some u, some w, some c, some n, some p, some l⟩ ∧
      e = ⟨extractRows sc, extractRows u, extractRows w, extractRows c,
           extractRows n, extractRows p, extractRows l⟩ := by
  obtain ⟨sc, u, w, c, n, p, l⟩ := s
  cases sc <;> cases u <;> cases w <;> cases c <;> cases n <;> cases p <;> cases l <;>
    simp only [phase1, reduceCtorEq, Except.ok.injEq] at h
  exact ⟨_, _, _, _, _, _, _, rfl, h.symm⟩

theorem mqlCast (p w : ℕ) :
    (if p + w ≠ 0 then ((w : ℚ) / ((p + w : ℕ) : ℚ)) * 100 else 0)
      = (if (p : ℚ) + (w : ℚ) ≠ 0 then ((w : ℚ) / ((p : ℚ) + (w : ℚ))) * 100 else 0) := by
  have hc : ((p + w : ℕ) : ℚ) = (p : ℚ) + (w : ℚ) := by push_cast; ring
  by_cases h : p + w = 0
  · obtain ⟨hp, hw⟩ := Nat.add_eq_zero.mp h
    subst hp hw
    norm_num
  · have h' : (p : ℚ) + (w : ℚ) ≠ 0 := by
      rw [← hc]
      exact_mod_cast h
    rw [if_pos h, if_pos h', hc]

/-! ### The claims -/

/-- C1: the claim says no rate or revenue-per-X cell of the output is ever
NaN/∞/error, with 0 at a zero denominator or an owner missing from the
groupings.  The code violates it: `close_show_rate_mql` is indexed only by
the union of the won and proposal groupings, and `df['Owner'].map(...)` has
no `.fillna(0)` for the rate columns, so an owner with a filtered row
(New Calls Booked = 1) but no won and no proposal record gets `NaN` in
`Close Rate(MQL) %` — not the 0 the claim requires. -/
theorem claimC1_mql_nan_eval :
    (processData stagesMqlNan dA dB FilterCol.dateCreated).map
        (fun pr => pr.1.ownerRows.map (fun r => (r.owner, r.newCallsBooked, r.closeRateMql)))
      = Except.ok [(CellVal.str "A", 1, PandasVal.nan)] ∧
    PandasVal.nan ≠ PandasVal.num 0 :=
  ⟨by with_unfolding_all rfl, by decide⟩

/-- C2: the claim says a missing stage key is treated as an empty table and
never aborts.  The code violates it: `dataframes.get(key, pd.DataFrame())`
substitutes a column-less frame, and the very next line reads its
`'Sales Call Date'` column, raising `KeyError` (caught in `main` as
"Data processing error"), a hard failure. -/
theorem claimC2_missing_stage_keyerror :
    processData stagesNoNoshow dA dB FilterCol.dateCreated
      = Except.error "KeyError: Sales Call Date" :=
  rfl

/-- C3: the claim says Proposal Rate = (proposal count + won count) / NCB,
so an owner with one proposal and no won record gets 100%.  The code
violates it: `prop + won_r` is an index-aligned Series addition, the
owner's missing won entry makes the sum `NaN`, and the `.fillna(0)` then
writes 0 — not the (1+0)/1 = 100% the claim requires. -/
theorem claimC3_prop_rate_zero_eval :
    (processData stagesPropOnly dA dB FilterCol.dateCreated).map
        (fun pr => pr.1.ownerRows.map (fun r => (r.owner, r.newCallsBooked, r.proposalRate)))
      = Except.ok [(CellVal.str "A", 1, PandasVal.num 0)] ∧
    PandasVal.num 0 ≠ PandasVal.num (((1 : ℚ) + 0) / 1 * 100) :=
  ⟨by with_unfolding_all rfl, by with_unfolding_all decide⟩

/-- C4, the claim as stated is false: with one filtered proposal row and
one filtered won row, the claim's formula (total won / total proposal)
gives 100%, but the Total row's Close Rate(MQL) is 50%, because the code's
denominator `total_proposal_mql` is the proposal count *plus* the won
count. -/
theorem claimC4_total_mql_counterexample :
    (processData stagesPropWon dA dB FilterCol.dateCreated).map
        (fun pr => pr.1.total.closeRateMql)
      = Except.ok (PandasVal.num 50) ∧
    PandasVal.num 50 ≠ PandasVal.num ((1 : ℚ) / 1 * 100) :=
  ⟨by with_unfolding_all rfl, by with_unfolding_all decide⟩

/-- C4 (amended): on the Total row, Close Rate(MQL) equals the total
filtered won-row count divided by the *sum* of the total filtered
proposal-row count and the total filtered won-row count (as a percentage),
0 when that sum is 0 — not the per-owner formula, whose denominator is the
proposal count alone. -/
theorem claimC4_total_mql_amended (s : Stages) (sd ed : Date) (col : FilterCol)
    (out : MetricsTable) (post : Stages)
    (h : processData s sd ed col = Except.ok (out, post)) :
    out.total.closeRateMql
      = PandasVal.num (totalCloseRateMqlAmended (extractedOfPost post) sd ed col) := by
  obtain ⟨e, hp, ho, hpost⟩ := processData_ok h
  subst ho hpost
  have hext : extractedOfPost (toStages e) = e := by cases e; rfl
  rw [hext]
  show PandasVal.num (totalCloseRateMql e sd ed col)
      = PandasVal.num (totalCloseRateMqlAmended e sd ed col)
  congr 1
  exact mqlCast _ _

/-- C4 amended, instantiated at a concrete input. -/
theorem claimC4_total_mql_amended_witness :
    (computeMetrics (extractedOfPost stagesPropWon) dA dB FilterCol.dateCreated).total.closeRateMql
      = PandasVal.num (totalCloseRateMqlAmended
          (extractedOfPost (toStages (extractedOfPost stagesPropWon))) dA dB
          FilterCol.dateCreated) :=
  claimC4_total_mql_amended stagesPropWon dA dB FilterCol.dateCreated
    (computeMetrics (extractedOfPost stagesPropWon) dA dB FilterCol.dateCreated)
    (toStages (extractedOfPost stagesPropWon)) (by rfl)

/-- C5: on every successful run, the Total row's New Calls Booked, Sales
Call Taken, Closed Revenue and Pipeline Revenue each equal the sum of the
corresponding column over the owner rows of the same output table (the
code computes each of these four totals as the column sum of the per-owner
frame before appending the Total row). -/
theorem claimC5_total_sums (s : Stages) (sd ed : Date) (col : FilterCol)
    (out : MetricsTable) (post : Stages)
    (h : processData s sd ed col = Except.ok (out, post)) :
    out.total.newCallsBooked = (out.ownerRows.map (fun r => r.newCallsBooked)).sum ∧
    out.total.salesCallTaken = (out.ownerRows.map (fun r => r.salesCallTaken)).sum ∧
    out.total.closedRevenue = psum (out.ownerRows.map (fun r => r.closedRevenue)) ∧
    out.total.pipelineRevenue = psum (out.ownerRows.map (fun r => r.pipelineRevenue)) := by
  obtain ⟨e, -, rfl, -⟩ := processData_ok h
  refine ⟨?_, ?_, ?_, ?_⟩ <;>
    simp only [computeMetrics, totalRow, totalNcb, totalSct, totalClosedRev,
      totalPipelineRev, List.map_map] <;> rfl

/-- C5, instantiated at a concrete input. -/
theorem claimC5_total_sums_witness :
    ((computeMetrics (extractedOfPost stagesPropWon) dA dB FilterCol.dateCreated).total.newCallsBooked
      = ((computeMetrics (extractedOfPost stagesPropWon) dA dB FilterCol.dateCreated).ownerRows.map
          (fun r => r.newCallsBooked)).sum) ∧
    ((computeMetrics (extractedOfPost stagesPropWon) dA dB FilterCol.dateCreated).total.salesCallTaken
      = ((computeMetrics (extractedOfPost stagesPropWon) dA dB FilterCol.dateCreated).ownerRows.map
          (fun r => r.salesCallTaken)).sum) ∧
    ((computeMetrics (extractedOfPost stagesPropWon) dA dB FilterCol.dateCreated).total.closedRevenue
      = psum ((computeMetrics (extractedOfPost stagesPropWon) dA dB FilterCol.dateCreated).ownerRows.map
          (fun r => r.closedRevenue))) ∧
    ((computeMetrics (extractedOfPost stagesPropWon) dA dB FilterCol.dateCreated).total.pipelineRevenue
      = psum ((computeMetrics (extractedOfPost stagesPropWon) dA dB FilterCol.dateCreated).ownerRows.map
          (fun r => r.pipelineRevenue))) :=
  claimC5_total_sums stagesPropWon dA dB FilterCol.dateCreated
    (computeMetrics (extractedOfPost stagesPropWon) dA dB FilterCol.dateCreated)
    (toStages (extractedOfPost stagesPropWon)) (by with_unfolding_all rfl)

theorem getCol_setCol (r : SRow) (c : FilterCol) (v : CellVal) :
    getCol (setCol r c v) c = v := by
  cases c <;> rfl

theorem mem_filterDate_date {r' : SRow} {rows : List SRow} {col : FilterCol} {sd ed : Date}
    (h : r' ∈ filterDate rows col sd ed) :
    ∃ dt, getCol r' col = CellVal.date dt ∧ dateLe sd dt = true ∧ dateLe dt ed = true := by
  unfold filterDate at h
  obtain ⟨-, hf⟩ := List.mem_filter.mp h
  cases hc : getCol r' col with
  | date dt =>
      simp only [hc, Bool.and_eq_true] at hf
      exact ⟨dt, rfl, hf.1, hf.2⟩
  | null => simp [hc] at hf
  | str s => simp [hc] at hf

/-- C6: `filter_date` is inclusive on both ends and total.  For a row of
the input table: if its filter-column value parses to a date `dt`, the row
(with that column rewritten to `dt`, as `filter_date` returns it) is kept
exactly when `start ≤ dt ≤ end` — in particular it is kept at
`dt = start` and `dt = end` and dropped strictly outside; if the value is
missing or unparseable (`pd.to_datetime` coerces it to `NaT`), the row is
excluded.  No input raises: `filterDate` is a total function. -/
theorem claimC6_date_filter (rows : List SRow) (col : FilterCol) (sd ed : Date)
    (r : SRow) (hr : r ∈ rows) :
    (∀ dt, pdToDate (getCol r col) = some dt →
        (setCol r col (CellVal.date dt) ∈ filterDate rows col sd ed
          ↔ (dateLe sd dt && dateLe dt ed) = true)) ∧
    (pdToDate (getCol r col) = none → setCol r col CellVal.null ∉ filterDate rows col sd ed) := by
  constructor
  · intro dt hparse
    constructor
    · intro hmem
      obtain ⟨dt', hcol, h1, h2⟩ := mem_filterDate_date hmem
      rw [getCol_setCol] at hcol
      obtain rfl : dt = dt' := by simpa using hcol
      rw [Bool.and_eq_true]
      exact ⟨h1, h2⟩
    · intro hrange
      unfold filterDate
      refine List.mem_filter.mpr ⟨List.mem_map.mpr ⟨r, hr, by simp only [hparse]⟩, ?_⟩
      simpa only [getCol_setCol] using hrange
  · intro hparse hmem
    obtain ⟨dt', hcol, -, -⟩ := mem_filterDate_date hmem
    rw [getCol_setCol] at hcol
    exact absurd hcol (by simp)

/-- C6, instantiated: a row whose `Date Created` is exactly the start of
the range is kept. -/
theorem claimC6_date_filter_witness :
    setCol rowAtStart FilterCol.dateCreated (CellVal.date dA)
      ∈ filterDate [rowAtStart] FilterCol.dateCreated dA dB :=
  ((claimC6_date_filter [rowAtStart] FilterCol.dateCreated dA dB rowAtStart
      (List.mem_singleton.mpr rfl)).1 dA (by decide)).mpr (by decide)

theorem dateShape10_length {l : List Char} (h : dateShape10 l = true) : l.length = 10 := by
  unfold dateShape10 at h
  split at h
  · simp
  · simp at h

theorem findDate_shape {cs m : List Char} (h : findDate cs = some m) :
    dateShape10 m = true := by
  induction cs with
  | nil => simp [findDate] at h
  | cons c cs ih =>
      unfold findDate at h
      split at h
      next hcond =>
        obtain rfl : (c :: cs).take 10 = m := by injection h
        exact hcond
      next => exact ih h

theorem findDate_self {m : List Char} (h : dateShape10 m = true) : findDate m = some m := by
  have hlen := dateShape10_length h
  cases m with
  | nil => simp at hlen
  | cons c cs =>
      unfold findDate
      have htake : (c :: cs).take 10 = c :: cs := by
        rw [← hlen]
        exact List.take_length _
      rw [htake, if_pos h]

theorem extractDateStr_found {s m : String} (h : extractDateStr s = some m) :
    extractDateStr m = some m := by
  unfold extractDateStr at h ⊢
  cases hf : findDate s.toList with
  | none => rw [hf] at h; simp at h
  | some l =>
      rw [hf] at h
      simp only [Option.map_some', Option.some.injEq] at h
      subst h
      have hshape := findDate_shape hf
      have htl : (⟨l⟩ : String).toList = l := rfl
      rw [htl, findDate_self hshape]
      rfl

theorem extractDateStr_length {s m : String} (h : extractDateStr s = some m) :
    m.toList.length = 10 := by
  unfold extractDateStr at h
  cases hf : findDate s.toList with
  | none => rw [hf] at h; simp at h
  | some l =>
      rw [hf] at h
      simp only [Option.map_some', Option.some.injEq] at h
      subst h
      exact dateShape10_length (findDate_shape hf)

theorem extractDateCell_idem (v : CellVal) :
    extractDateCell (extractDateCell v) = extractDateCell v := by
  cases v with
  | null => rfl
  | date dt => rfl
  | str s =>
      show extractDateCell (extractDateCell (.str s)) = extractDateCell (.str s)
      by_cases hnat : s = "NaT"
      · simp [extractDateCell, hnat]
      · rw [show extractDateCell (.str s)
              = (match extractDateStr s with
                  | some m => CellVal.str m
                  | none => CellVal.null) from by simp [extractDateCell, hnat]]
        cases hx : extractDateStr s with
        | none => rfl
        | some m =>
            have hm := extractDateStr_found hx
            have hm_ne : m ≠ "NaT" := by
              intro he
              have := extractDateStr_length hx
              rw [he] at this
              simp at this
            simp [extractDateCell, hm_ne, hm]

theorem extractRow_idem (r : SRow) : extractRow (extractRow r) = extractRow r := by
  simp [extractRow, extractDateCell_idem]

theorem extractRows_idem (l : List SRow) : extractRows (extractRows l) = extractRows l := by
  simp [extractRows, List.map_map, Function.comp_def, extractRow_idem]

theorem phase1_toStages_extract (sc u w c n p l : List SRow) :
    phase1 (toStages ⟨extractRows sc, extractRows u, extractRows w, extractRows c,
        extractRows n, extractRows p, extractRows l⟩)
      = Except.ok ⟨extractRows sc, extractRows u, extractRows w, extractRows c,
          extractRows n, extractRows p, extractRows l⟩ := by
  show Except.ok (⟨extractRows (extractRows sc), extractRows (extractRows u),
      extractRows (extractRows w), extractRows (extractRows c), extractRows (extractRows n),
      extractRows (extractRows p), extractRows (extractRows l)⟩ : Extracted) = _
  simp only [extractRows_idem]

/-- C7, the claim as stated is false: `process_data` is not free of side
effects on its inputs.  The `op_x['Sales Call Date'] = ...apply(extract_date)`
lines assign into the caller's DataFrames, so after a call the cancelled
table's `Sales Call Date` cell has been rewritten from
`'Call 2024-05-01'` to `'2024-05-01'` — the post-call table differs from
the input table. -/
theorem claimC7_mutation_counterexample :
    (processData stagesMut dA dB FilterCol.dateCreated).map (fun pr => pr.2.cancelled)
      = Except.ok (some [⟨CellVal.str "A", CellVal.null, CellVal.str "2024-05-10",
          CellVal.str "2024-05-01"⟩]) ∧
    some [(⟨CellVal.str "A", CellVal.null, CellVal.str "2024-05-10",
          CellVal.str "2024-05-01"⟩ : SRow)] ≠ stagesMut.cancelled :=
  ⟨by with_unfolding_all rfl, by with_unfolding_all decide⟩

/-- C7 (amended): `process_data` does mutate its inputs, but only the
`Sales Call Date` column: on success the post-call state of each of the
seven tables is the input table with `extract_date` applied to that one
column (owners, deal values and `Date Created` untouched), and — because
`extract_date` is idempotent — a second call on the mutated inputs
returns the identical metrics table and leaves the tables unchanged, so
re-running with what the first run left behind reproduces the result. -/
theorem claimC7_amended (s : Stages) (sd ed : Date) (col : FilterCol)
    (out : MetricsTable) (post : Stages)
    (h : processData s sd ed col = Except.ok (out, post)) :
    (post.scheduled = s.scheduled.map extractRows ∧
     post.unqualified = s.unqualified.map extractRows ∧
     post.won = s.won.map extractRows ∧
     post.cancelled = s.cancelled.map extractRows ∧
     post.noshow = s.noshow.map extractRows ∧
     post.proposal = s.proposal.map extractRows ∧
     post.lost = s.lost.map extractRows) ∧
    processData post sd ed col = Except.ok (out, post) := by
  obtain ⟨e, hp, rfl, rfl⟩ := processData_ok h
  obtain ⟨sc, u, w, c, n, p, l, rfl, rfl⟩ := phase1_ok hp
  refine ⟨⟨rfl, rfl, rfl, rfl, rfl, rfl, rfl⟩, ?_⟩
  unfold processData
  rw [phase1_toStages_extract]
  rfl

/-- C7 amended, instantiated at a concrete input. -/
theorem claimC7_amended_witness :
    (((toStages (extractedOfPost emptyStages)).scheduled
        = emptyStages.scheduled.map extractRows ∧
      (toStages (extractedOfPost emptyStages)).unqualified
        = emptyStages.unqualified.map extractRows ∧
      (toStages (extractedOfPost emptyStages)).won
        = emptyStages.won.map extractRows ∧
      (toStages (extractedOfPost emptyStages)).cancelled
        = emptyStages.cancelled.map extractRows ∧
      (toStages (extractedOfPost emptyStages)).noshow
        = emptyStages.noshow.map extractRows ∧
      (toStages (extractedOfPost emptyStages)).proposal
        = emptyStages.proposal.map extractRows ∧
      (toStages (extractedOfPost emptyStages)).lost
        = emptyStages.lost.map extractRows) ∧
     processData (toStages (extractedOfPost emptyStages)) dA dB FilterCol.dateCreated
       = Except.ok (computeMetrics (extractedOfPost emptyStages) dA dB FilterCol.dateCreated,
           toStages (extractedOfPost emptyStages))) :=
  claimC7_amended emptyStages dA dB FilterCol.dateCreated
    (computeMetrics (extractedOfPost emptyStages) dA dB FilterCol.dateCreated)
    (toStages (extractedOfPost emptyStages)) (by with_unfolding_all rfl)

theorem filterMap_owner_extractRows (x : List SRow) :
    (extractRows x).filterMap (fun r => if r.owner = CellVal.null then none else some r.owner)
      = x.filterMap (fun r => if r.owner = CellVal.null then none else some r.owner) := by
  unfold extractRows
  rw [List.filterMap_map]
  rfl

/-- C8, the claim as stated is false: the claim excludes the empty-string
owner from the owner rows, but the code only drops *null* owners
(`dropna()`), so one scheduled record with `Owner = ""` produces an owner
row labelled `""` that participates in aggregation (New Calls Booked = 1)
— not the empty row set the claim requires. -/
theorem claimC8_empty_owner_counterexample :
    (processData stagesEmptyOwner dA dB FilterCol.dateCreated).map
        (fun pr => pr.1.ownerRows.map (fun r => (r.owner, r.newCallsBooked)))
      = Except.ok [(CellVal.str "", 1)] ∧
    ([(CellVal.str "", 1)] : List (CellVal × Nat)) ≠ [] :=
  ⟨by with_unfolding_all rfl, by decide⟩

/-- C8 (amended): the owner rows of the output are exactly the distinct
*non-null* Owner values appearing across all seven stage tables before
date filtering, each once in order of first appearance (in the
concatenation order cancelled, lost, noshow, proposal, scheduled,
unqualified, won); only missing owners are excluded — an empty-string
owner value is a regular owner and gets its own row. -/
theorem claimC8_amended (s : Stages) (sd ed : Date) (col : FilterCol)
    (out : MetricsTable) (post : Stages)
    (h : processData s sd ed col = Except.ok (out, post)) :
    out.ownerRows.map (fun r => r.owner)
      = ownerKeys ((s.cancelled.getD []) ++ (s.lost.getD []) ++ (s.noshow.getD [])
          ++ (s.proposal.getD []) ++ (s.scheduled.getD []) ++ (s.unqualified.getD [])
          ++ (s.won.getD [])) := by
  obtain ⟨e, hp, rfl, -⟩ := processData_ok h
  obtain ⟨sc, u, w, c, n, p, l, rfl, rfl⟩ := phase1_ok hp
  show ((ownersU _).map (mkOwnerRow _ sd ed col)).map (fun r => r.owner) = _
  rw [List.map_map]
  have hcomp : ((fun r : MetricsRow => r.owner)
      ∘ mkOwnerRow ⟨extractRows sc, extractRows u, extractRows w, extractRows c,
          extractRows n, extractRows p, extractRows l⟩ sd ed col) = id :=
    funext (fun o => rfl)
  rw [hcomp, List.map_id]
  show ownerKeys (extractRows c ++ extractRows l ++ extractRows n ++ extractRows p
      ++ extractRows sc ++ extractRows u ++ extractRows w) = _
  unfold ownerKeys
  simp only [Option.getD_some, List.filterMap_append, filterMap_owner_extractRows]

/-- C8 amended, instantiated at a concrete input. -/
theorem claimC8_amended_witness :
    (computeMetrics (extractedOfPost stagesEmptyOwner) dA dB FilterCol.dateCreated).ownerRows.map
        (fun r => r.owner)
      = ownerKeys ((stagesEmptyOwner.cancelled.getD []) ++ (stagesEmptyOwner.lost.getD [])
          ++ (stagesEmptyOwner.noshow.getD []) ++ (stagesEmptyOwner.proposal.getD [])
          ++ (stagesEmptyOwner.scheduled.getD []) ++ (stagesEmptyOwner.unqualified.getD [])
          ++ (stagesEmptyOwner.won.getD [])) :=
  claimC8_amended stagesEmptyOwner dA dB FilterCol.dateCreated
    (computeMetrics (extractedOfPost stagesEmptyOwner) dA dB FilterCol.dateCreated)
    (toStages (extractedOfPost stagesEmptyOwner)) (by with_unfolding_all rfl)

theorem dictGet_dictSet_ne (d : List (String × String)) (k v h' : String)
    (hne : h' ≠ k) : dictGet (dictSet d k v) h' = dictGet d h' := by
  induction d with
  | nil =>
      unfold dictSet dictGet
      rw [List.find?_cons_of_neg _ (by simpa using Ne.symm hne)]
  | cons p d ih =>
      unfold dictSet
      by_cases hp : p.1 = k
      · rw [if_pos hp]
        unfold dictGet
        rw [List.find?_cons_of_neg _ (by simpa using Ne.symm hne),
            List.find?_cons_of_neg _ (by simp [hp]; exact Ne.symm hne)]
      · rw [if_neg hp]
        unfold dictGet
        by_cases hph : p.1 = h'
        · rw [List.find?_cons_of_pos _ (by simpa using hph),
              List.find?_cons_of_pos _ (by simpa using hph)]
        · rw [List.find?_cons_of_neg _ (by simpa using hph),
              List.find?_cons_of_neg _ (by simpa using hph)]
          exact ih

theorem dictGet_foldl_absent (cvs : List ColVal) (d : List (String × String)) (h' : String)
    (hids : ∀ cv ∈ cvs, cv.id ≠ h') (hd : dictGet d h' = none) :
    dictGet (cvs.foldl (fun acc cv => dictSet acc cv.id (cv.text.getD "")) d) h' = none := by
  induction cvs generalizing d with
  | nil => exact hd
  | cons cv cvs ih =>
      simp only [List.foldl_cons]
      refine ih _ (fun x hx => hids x (List.mem_cons_of_mem _ hx)) ?_
      rw [dictGet_dictSet_ne _ _ _ _ (Ne.symm (hids cv (List.mem_cons_self _ _)))]
      exact hd

theorem rowDict_absent (it : Item) (h' : String)
    (h1 : h' ≠ "Item ID") (h2 : h' ≠ "Item Name")
    (hids : ∀ cv ∈ it.columnValues, cv.id ≠ h') :
    dictGet (rowDict it) h' = none := by
  unfold rowDict
  refine dictGet_foldl_absent _ _ _ hids ?_
  unfold dictGet
  rw [List.find?_cons_of_neg _ (by simpa using Ne.symm h1),
      List.find?_cons_of_neg _ (by simpa using Ne.symm h2)]
  rfl

/-- C9, the claim as stated is false: an attribute id that is in the first
record's schema but entirely absent from a later record's attribute list
does *not* yield an empty-string cell.  The row dict of that record never
assigns the key, and `pd.DataFrame(data, columns=headers)` fills the cell
with `NaN` — a missing value, not `""`. -/
theorem claimC9_missing_attr_counterexample :
    cellOf (itemsToDataframe itemsMissingAttr) 1 "a" = none ∧
    (none : Option String) ≠ some "" ∧
    (itemsToDataframe itemsMissingAttr).rows.length = 2 :=
  ⟨by with_unfolding_all rfl, by decide, by with_unfolding_all rfl⟩

/-- C9 (amended): for a non-empty input, every record still yields exactly
one row (rows are never dropped), but an attribute id absent from a
record's attribute list yields a missing (`NaN`) cell in that record's
row, not an empty string.  (The empty-string cell arises only when the
attribute entry is present without a text value, via
`column.get('text', '')`.) -/
theorem claimC9_amended (items : List Item) (it : Item) (rest : List Item)
    (hitems : items = it :: rest) (j : Nat) (itj : Item)
    (hj : items[j]? = some itj) (h' : String)
    (h1 : h' ≠ "Item ID") (h2 : h' ≠ "Item Name")
    (hids : ∀ cv ∈ itj.columnValues, cv.id ≠ h') :
    (itemsToDataframe items).rows.length = items.length ∧
    cellOf (itemsToDataframe items) j h' = none := by
  subst hitems
  constructor
  · show ((it :: rest).map rowDict).length = _
    rw [List.length_map]
  · show (match ((it :: rest).map rowDict)[j]? with
          | some d => dictGet d h'
          | none => none) = none
    rw [List.getElem?_map, hj]
    exact rowDict_absent itj h' h1 h2 hids

/-- C9 amended, instantiated at a concrete input. -/
theorem claimC9_amended_witness :
    (itemsToDataframe itemsMissingAttr).rows.length = itemsMissingAttr.length ∧
    cellOf (itemsToDataframe itemsMissingAttr) 1 "a" = none :=
  claimC9_amended itemsMissingAttr ⟨"1", "n", [⟨"a", some "x"⟩]⟩ [⟨"2", "m", []⟩] rfl
    1 ⟨"2", "m", []⟩ rfl "a" (by decide) (by decide) (by simp)

/-- C10: before any filtering, `process_data` rewrites every stage table's
`Sales Call Date` values with `extract_date` — the first `YYYY-MM-DD`
substring found anywhere in the text, `None` when there is none — while
`Date Created` (like every other column) is never rewritten and is parsed
whole by `filter_date`.  Consequently a date text with surrounding
characters (here `"date:2024-05-01"`) is recovered and counted when
filtering by `Sales Call Date`, but excluded when the same text sits in
`Date Created`: the same record gives New Calls Booked 1 under one filter
column and 0 under the other. -/
theorem claimC10_extract_contrast :
    (∀ (s : Stages) (sd ed : Date) (col : FilterCol) (out : MetricsTable) (post : Stages),
        processData s sd ed col = Except.ok (out, post) →
          post.scheduled = s.scheduled.map extractRows ∧
          post.unqualified = s.unqualified.map extractRows ∧
          post.won = s.won.map extractRows ∧
          post.cancelled = s.cancelled.map extractRows ∧
          post.noshow = s.noshow.map extractRows ∧
          post.proposal = s.proposal.map extractRows ∧
          post.lost = s.lost.map extractRows) ∧
    (∀ r : SRow, (extractRow r).salesCallDate = extractDateCell r.salesCallDate ∧
        (extractRow r).dateCreated = r.dateCreated ∧
        (extractRow r).owner = r.owner ∧
        (extractRow r).dealValue = r.dealValue) ∧
    extractDateStr "date:2024-05-01" = some "2024-05-01" ∧
    pdToDate (CellVal.str "date:2024-05-01") = none ∧
    (processData stagesWrapped dA dB FilterCol.salesCallDate).map
        (fun pr => pr.1.ownerRows.map (fun r => (r.owner, r.newCallsBooked)))
      = Except.ok [(CellVal.str "A", 1)] ∧
    (processData stagesWrapped dA dB FilterCol.dateCreated).map
        (fun pr => pr.1.ownerRows.map (fun r => (r.owner, r.newCallsBooked)))
      = Except.ok [(CellVal.str "A", 0)] := by
  refine ⟨?_, ?_, ?_, ?_, ?_, ?_⟩
  · intro s sd ed col out post h
    obtain ⟨e, hp, -, rfl⟩ := processData_ok h
    obtain ⟨sc, u, w, c, n, p, l, rfl, rfl⟩ := phase1_ok hp
    exact ⟨rfl, rfl, rfl, rfl, rfl, rfl, rfl⟩
  · intro r
    exact ⟨rfl, rfl, rfl, rfl⟩
  · with_unfolding_all rfl
  · with_unfolding_all rfl
  · with_unfolding_all rfl
  · with_unfolding_all rfl

/-- C10, the universal part instantiated at a concrete input. -/
theorem claimC10_extract_contrast_witness :
    (toStages (extractedOfPost emptyStages)).won = emptyStages.won.map extractRows :=
  ((claimC10_extract_contrast).1 emptyStages dA dB FilterCol.dateCreated
    (computeMetrics (extractedOfPost emptyStages) dA dB FilterCol.dateCreated)
    (toStages (extractedOfPost emptyStages)) (by with_unfolding_all rfl)).2.2.1

end MondayCRM
